import Mathlib

/-!
Verification development for the water-bot repository.

The Python source is shallowly embedded: pure functions become Lean
functions, stateful code becomes explicit state passing, time is modelled
as a rational number of seconds, and fallible operations return values of
`Except` or are driven by explicit outcome oracles.  Each section names
the source file and function it embeds.
-/

namespace WaterBot

/-! ### String helpers

Embeds the whitespace handling used by the source: Python `str.strip`,
`str.lower`, the regex `\s+` substitution with a single space
(`BaseScraper.WHITESPACE_PATTERN`, src/app/base_scraper.py line 27), and
the Python substring test `a in b` used by `_make_request` and
`check_and_send_alerts`. -/

/-- ASCII whitespace, the characters matched by the regex class `\s`
on the ASCII plane. -/
def isPyWs (c : Char) : Bool :=
  c = ' ' ∨ c = '\t' ∨ c = '\n' ∨ c = '\r' ∨ c = '\x0b' ∨ c = '\x0c'

/-- Python `str.strip()`: drop leading and trailing whitespace. -/
def pyStrip (s : String) : String :=
  ⟨(s.toList.dropWhile isPyWs).reverse.dropWhile isPyWs |>.reverse⟩

/-- Whitespace collapsing on a character list, carrying whether the
previous character was whitespace: the first character of a whitespace
run becomes one space, the rest of the run is dropped. -/
def collapseAux : Bool → List Char → List Char
  | _, [] => []
  | prevWs, c :: rest =>
    if isPyWs c then
      if prevWs then collapseAux true rest
      else ' ' :: collapseAux true rest
    else c :: collapseAux false rest

/-- `WHITESPACE_PATTERN.sub(' ', s)`: collapse each maximal run of
whitespace characters to a single space. -/
def collapseWs (s : String) : String := ⟨collapseAux false s.toList⟩

/-- Python `str.lower()` restricted to ASCII case folding. -/
def pyLower (s : String) : String := ⟨s.toList.map Char.toLower⟩

/-- Python `needle in hay` on character lists. -/
def listContains (needle : List Char) : List Char → Bool
  | [] => needle.isEmpty
  | c :: rest => needle.isPrefixOf (c :: rest) || listContains needle rest

/-- Python substring containment `needle in hay` for strings. -/
def strContains (hay needle : String) : Bool :=
  listContains needle.toList hay.toList

/-! ### Redis dedup store

Embeds src/app/services/redis_service.py.  A Redis database is modelled
as, per key, a list of set members together with an optional absolute
expiry instant.  Redis expiry semantics: a key whose expiry instant is
`≤ now` behaves as absent; `SADD` on such a key starts a fresh set with
no TTL; `EXPIRE key t` sets the expiry instant to `now + t`. -/

/-- The members and expiry bookkeeping of one Redis database. -/
structure RedisDB where
  members : String → List String
  expireAt : String → Option ℚ

/-- The empty database: no keys, no expiries. -/
def RedisDB.empty : RedisDB := ⟨fun _ => [], fun _ => none⟩

/-- Whether a key is past its expiry instant at time `now`. -/
def RedisDB.expired (db : RedisDB) (now : ℚ) (key : String) : Bool :=
  match db.expireAt key with
  | none => false
  | some t => t ≤ now

/-- The members visible at time `now`: an expired key is absent. -/
def RedisDB.liveMembers (db : RedisDB) (now : ℚ) (key : String) : List String :=
  if db.expired now key then [] else db.members key

/-- `SISMEMBER key v` at time `now`. -/
def RedisDB.sismember (db : RedisDB) (now : ℚ) (key v : String) : Bool :=
  (db.liveMembers now key).contains v

/-- `SADD key v` at time `now`: an expired key is first dropped (losing
its members and TTL), then `v` is inserted. -/
def RedisDB.sadd (db : RedisDB) (now : ℚ) (key v : String) : RedisDB :=
  { members := fun k =>
      if k = key then v :: (db.liveMembers now key).erase v
      else db.members k
    expireAt := fun k =>
      if k = key then (if db.expired now key then none else db.expireAt key)
      else db.expireAt k }

/-- `EXPIRE key t` at time `now`: sets the expiry instant of `key` to
`now + t` (the key exists at every call site, directly after `SADD`). -/
def RedisDB.expire (db : RedisDB) (now t : ℚ) (key : String) : RedisDB :=
  { db with expireAt := fun k => if k = key then some (now + t) else db.expireAt k }

/-- `RedisService.__init__`: an optional client plus the configured TTL
(`settings.REDIS_ALERT_TTL`, default 1209600 seconds = 14 days). -/
structure RedisService where
  redis_client : Option RedisDB
  ttl : ℚ

/-- `settings.REDIS_ALERT_TTL` default: 1209600 seconds (14 days). -/
def REDIS_ALERT_TTL : ℚ := 1209600

/-- `RedisService._get_user_key`. -/
def get_user_key (chat_id : ℤ) : String := "sent_alerts:" ++ toString chat_id

/-- `RedisService.has_alert_been_sent`.  `backendFails` models the
backend raising inside the `try` block; the handler returns `False`. -/
def has_alert_been_sent (svc : RedisService) (backendFails : Bool)
    (now : ℚ) (chat_id : ℤ) (alert_id : String) : Bool :=
  match svc.redis_client with
  | none => false
  | some db =>
    if backendFails then false
    else db.sismember now (get_user_key chat_id) alert_id

/-- `RedisService.mark_alert_as_sent`: `SADD` then `EXPIRE` with the
configured TTL.  Returns the updated service and the boolean result; a
backend failure leaves the database unchanged and returns `false`. -/
def mark_alert_as_sent (svc : RedisService) (backendFails : Bool)
    (now : ℚ) (chat_id : ℤ) (alert_id : String) : RedisService × Bool :=
  match svc.redis_client with
  | none => (svc, false)
  | some db =>
    if backendFails then (svc, false)
    else
      let key := get_user_key chat_id
      let db := db.sadd now key alert_id
      let db := db.expire now svc.ttl key
      ({ svc with redis_client := some db }, true)

/-! ### Fetch engine

Embeds `BaseScraper._make_request` (src/app/base_scraper.py lines
111-153).  Each attempt consults an oracle `goto : Nat → GotoOutcome`
giving the outcome of `self._page.goto` on that attempt.  The run
produces an event trace; the event vocabulary includes identity rotation
and session rebuild so that their absence is expressible, but the source
function contains no call that would emit them.  Query-string assembly
from `params` is orthogonal to every claim and the embedding takes the
final URL directly. -/

/-- Outcome of one `page.goto` call: no response object, a response with
a status code and page content, or a raised transport error. -/
inductive GotoOutcome
  | noResponse
  | response (status : Nat) (content : String)
  | transportError (msg : String)
deriving DecidableEq, Repr

/-- Observable events of one `_make_request` run. -/
inductive ReqEvent
  | politeSleep     -- the jittered delay at the top of each attempt
  | gotoCall        -- a `page.goto` request issued
  | backoffSleep    -- the exponential backoff wait in the 403 branch
  | rotateIdentity  -- an identity rotation (never emitted by the source)
  | rebuildSession  -- a session rebuild (never emitted by the source)
deriving DecidableEq, Repr

/-- Result of a `_make_request` run: the event trace and either the page
content, the raised error message, or `Except.ok none` for the implicit
`None` fall-through (reachable only with `max_retries = 0`). -/
structure FetchResult where
  events : List ReqEvent
  result : Except String (Option String)
deriving Repr

/-- Message of `Exception(f"No response received for ...")`. -/
def noResponseMsg (url : String) : String := "No response received for " ++ url

/-- Message of `Exception(f"403 Client Error: Forbidden for url: ...")`. -/
def blockedMsg (url : String) : String :=
  "403 Client Error: Forbidden for url: " ++ url

/-- Message of `Exception(f"... Error for url: ...")` for status ≥ 400. -/
def httpErrorMsg (status : Nat) (url : String) : String :=
  toString status ++ " Error for url: " ++ url

/-- The retry loop of `_make_request`.  `remaining` counts iterations
still to run (`attempt = maxRetries - remaining`), `last` is
`last_exception`, `evs` accumulates events in reverse.  The `except`
handler re-raises unless the rendered message contains `"403"`. -/
def makeRequestLoop (url : String) (goto : Nat → GotoOutcome) (maxRetries : Nat) :
    Nat → Option String → List ReqEvent → FetchResult
  | 0, last, evs =>
    { events := evs.reverse
      result := match last with
        | some e => Except.error e
        | none => Except.ok none }
  | remaining + 1, last, evs =>
    let attempt := maxRetries - (remaining + 1)
    let evs := ReqEvent.gotoCall :: ReqEvent.politeSleep :: evs
    let caught := fun (msg : String) =>
      if strContains msg "403" then
        makeRequestLoop url goto maxRetries remaining (some msg) evs
      else { events := evs.reverse, result := Except.error msg }
    match goto attempt with
    | GotoOutcome.noResponse => caught (noResponseMsg url)
    | GotoOutcome.transportError msg => caught msg
    | GotoOutcome.response status content =>
      if status = 403 then
        if attempt < maxRetries - 1 then
          makeRequestLoop url goto maxRetries remaining last
            (ReqEvent.backoffSleep :: evs)
        else caught (blockedMsg url)
      else if 400 ≤ status then caught (httpErrorMsg status url)
      else { events := evs.reverse, result := Except.ok (some content) }

/-- `BaseScraper._make_request` (the source default is
`max_retries = 3`). -/
def make_request (url : String) (goto : Nat → GotoOutcome)
    (maxRetries : Nat) : FetchResult :=
  makeRequestLoop url goto maxRetries maxRetries none []

/-- Number of HTTP attempts a run actually issued. -/
def FetchResult.attempts (r : FetchResult) : Nat :=
  r.events.count ReqEvent.gotoCall

/-- Number of identity rotations recorded in a run. -/
def FetchResult.rotations (r : FetchResult) : Nat :=
  r.events.count ReqEvent.rotateIdentity

/-- Number of session rebuilds recorded in a run. -/
def FetchResult.rebuilds (r : FetchResult) : Nat :=
  r.events.count ReqEvent.rebuildSession

/-! ### Records and result cache

Embeds the alert dictionaries built by `WaterScraper._extract_item_data`
and `WaterScraper.get_fallback_data` (src/app/services/water_scraper.py),
and the result cache of `BaseScraper` (`is_cache_valid`,
`_handle_scraping_failure`).  `published_at` keeps the capture instant
itself (the source stores `datetime.now().isoformat()`); the fallback
record carries no `url` key, modelled as `none`. -/

/-- One extracted water alert. -/
structure Alert where
  title : String
  message : String
  url : Option String
  published_at : ℚ
  story_id : Option String
deriving DecidableEq, Repr

/-- One result-cache entry: the `data` list and the `timestamp` field
(`none` models a missing timestamp). -/
structure CacheEntry where
  data : List Alert
  timestamp : Option ℚ

/-- The scraper cache `self.cache`, a dict from cache key to entry. -/
def Cache := String → Option CacheEntry

/-- The empty cache of a fresh scraper instance. -/
def Cache.empty : Cache := fun _ => none

/-- `BaseScraper.is_cache_valid` (src/app/base_scraper.py lines 98-109):
the entry must exist, have a timestamp, and the elapsed seconds must be
strictly below `cache_timeout`. -/
def is_cache_valid (cache : Cache) (cache_timeout now : ℚ)
    (cache_key : String) : Bool :=
  match cache cache_key with
  | none => false
  | some entry =>
    match entry.timestamp with
    | none => false
    | some cached_time => decide (now - cached_time < cache_timeout)

/-- `WaterScraper.get_fallback_data`: the fixed placeholder record set;
its single record has `story_id = None` and no `url` key. -/
def get_fallback_data (now : ℚ) : List Alert :=
  [{ title := "Water Alerts Unavailable"
     message := "Could not retrieve water supply data"
     url := none
     published_at := now
     story_id := none }]

/-- `BaseScraper._handle_scraping_failure` (src/app/base_scraper.py
lines 161-167): cached entry data if the key is present (regardless of
validity), else the fallback set. -/
def handle_scraping_failure (cache : Cache) (now : ℚ)
    (cache_key : String) : List Alert :=
  match cache cache_key with
  | some entry => entry.data
  | none => get_fallback_data now

/-! ### Extractor

Embeds `WaterScraper._extract_item_data` (src/app/services/
water_scraper.py lines 74-111).  The BeautifulSoup element tree is
modelled by the fields the function reads: the toggle text, the parent
`panel` div, the `panel-collapse` wrapper, and the stripped string
descendants of the body div (`panel-body`, with `panel body` as the
fallback class).  `pyHash` abstracts the process-fixed CPython string
hash used on line 105. -/

/-- The text descendants of a located panel body, in document order. -/
structure PanelBody where
  textDescendants : List String
deriving DecidableEq, Repr

/-- The `panel-collapse` wrapper: the result of looking up a
`panel-body` div and, failing that, a `panel body` div. -/
structure PanelCollapse where
  panel_body : Option PanelBody
  panel_body_alt : Option PanelBody
deriving DecidableEq, Repr

/-- The parent `panel` div of an accordion toggle. -/
structure ParsedPanel where
  collapse : Option PanelCollapse
deriving DecidableEq, Repr

/-- One accordion toggle link as found on a page. -/
structure AccordionLink where
  text : String
  parentPanel : Option ParsedPanel
deriving DecidableEq, Repr

/-- `WaterScraper._extract_item_data`.  Nothing in the embedded body can
raise, so the `except` branch returning `None` is represented only by
the explicit `None` returns of the source. -/
def extract_item_data (pyHash : String → ℤ) (BASE_URL : String)
    (now : ℚ) (element : AccordionLink) : Option Alert :=
  let title := collapseWs (pyStrip element.text)
  match element.parentPanel with
  | none => none
  | some panel =>
    match panel.collapse with
    | none => none
    | some body_wrapper =>
      let panel_body :=
        match body_wrapper.panel_body with
        | some b => some b
        | none => body_wrapper.panel_body_alt
      let message_parts :=
        match panel_body with
        | none => []
        | some b => b.textDescendants.filterMap fun t =>
            let s := pyStrip t
            if s = "" then none else some s
      let message := pyStrip (collapseWs (String.intercalate " " message_parts))
      some { title := title
             message := message
             url := some BASE_URL
             published_at := now
             story_id := some (toString (pyHash (title ++ message))) }

/-- One full-page extraction: BeautifulSoup parsing plus the
`find_all` of accordion links (src/app/services/water_scraper.py line
50) is a pure function of the raw bytes, abstracted as `parse`; each
link is then fed to `_extract_item_data` and failures are dropped. -/
def extractPage (parse : String → List AccordionLink) (pyHash : String → ℤ)
    (BASE_URL : String) (now : ℚ) (rawHTML : String) : List Alert :=
  (parse rawHTML).filterMap (extract_item_data pyHash BASE_URL now)

/-! ### Pagination — `WaterScraper.get_data`

Embeds src/app/services/water_scraper.py lines 32-72.  The outcome of
the per-page request-and-parse (lines 47-50) is given by an oracle
`page : Nat → PageFetch`; an exception inside the per-page `try` is
caught and skipped (`continue`).  Nothing between the per-page handler
and the outer `except` can raise, so the outer handler (which calls
`_handle_scraping_failure`) is not reachable from a page failure. -/

/-- Outcome of fetching and parsing one result page. -/
inductive PageFetch
  | links (accordion_links : List AccordionLink)
  | failed
deriving Repr

/-- Result of a `get_data` call: the returned records, the cache
afterwards, and how many page fetches the loop issued. -/
structure GetDataResult where
  data : List Alert
  cache : Cache
  pagesFetched : Nat

/-- The alerts one loop iteration appends: none when the page fetch
failed, else the extractable panels of the page. -/
def scrapeOnePage (extract : AccordionLink → Option Alert) :
    PageFetch → List Alert
  | PageFetch.failed => []
  | PageFetch.links ls => ls.filterMap extract

/-- `WaterScraper.get_cache_key`. -/
def get_cache_key : String := "water_alerts_all"

/-- `WaterScraper.get_data`: serve a valid cache entry, else scrape
pages 1 to 5 in order (`range(1, 6)`), skipping failed pages, then cache
and return the accumulated list. -/
def get_data (pyHash : String → ℤ) (BASE_URL : String) (cache : Cache)
    (cache_timeout : ℚ) (page : Nat → PageFetch) (now : ℚ) : GetDataResult :=
  if is_cache_valid cache cache_timeout now get_cache_key then
    { data := match cache get_cache_key with
        | some entry => entry.data
        | none => []
      cache := cache
      pagesFetched := 0 }
  else
    let extract := extract_item_data pyHash BASE_URL now
    let alerts := ([1, 2, 3, 4, 5] : List Nat).flatMap
      fun p => scrapeOnePage extract (page p)
    { data := alerts
      cache := fun k =>
        if k = get_cache_key then some ⟨alerts, some now⟩ else cache k
      pagesFetched := 5 }

/-! ### Fan-out notifier

Embeds `BotService.send_alert_to_user` and the delivery loops of
`BotService.check_and_send_alerts` (src/app/services/bot_service.py).
The subscriber registry (`user_service`) is modelled as a map from chat
id to `User` with the two `update_user` calls the core issues; delivery
transport outcomes come from an oracle.  The Redis backend is taken as
healthy in this layer (`backendFails := false` at the call sites), as
backend failure is the subject of the dedup-store claims instead. -/

/-- A subscriber row, with the fields the fan-out reads and writes. -/
structure User where
  chat_id : ℤ
  username : String
  location : Option String
  is_active : Bool
  last_notified : Option ℚ
deriving DecidableEq, Repr

/-- The external subscriber registry keyed by chat id. -/
def Registry := ℤ → Option User

/-- `user_service.update_user(chat_id, is_active=b)`. -/
def Registry.updateActive (reg : Registry) (chat_id : ℤ) (b : Bool) : Registry :=
  fun c => if c = chat_id then (reg c).map (fun u => { u with is_active := b })
           else reg c

/-- `user_service.update_user(chat_id, last_notified=t)`. -/
def Registry.updateLastNotified (reg : Registry) (chat_id : ℤ) (t : ℚ) : Registry :=
  fun c => if c = chat_id then (reg c).map (fun u => { u with last_notified := some t })
           else reg c

/-- Outcome of one `bot.send_message` call: delivered, a
`TelegramAPIError` with its message, or any other exception. -/
inductive SendOutcome
  | delivered
  | telegramError (msg : String)
  | unexpectedError (msg : String)
deriving DecidableEq, Repr

/-- `BotService.send_alert_to_user` (src/app/services/bot_service.py
lines 21-47): returns the success flag and the registry afterwards.  A
`TelegramAPIError` whose lowercased message contains
`"bot was blocked"` deactivates the subscriber; every failure returns
`False`. -/
def send_alert_to_user (outcome : SendOutcome) (reg : Registry)
    (user : User) : Bool × Registry :=
  match outcome with
  | SendOutcome.delivered => (true, reg)
  | SendOutcome.telegramError msg =>
    (false,
      if strContains (pyLower msg) "bot was blocked" then
        reg.updateActive user.chat_id false
      else reg)
  | SendOutcome.unexpectedError _ => (false, reg)

/-- Dedup-store operations issued by the fan-out, for instrumentation. -/
inductive RedisOp
  | query (chat_id : ℤ) (alert_id : String)
  | mark (chat_id : ℤ) (alert_id : String)
deriving DecidableEq, Repr

/-- The mutable state threaded through one alert-check cycle, plus the
dedup-operation log and the list of delivery attempts made. -/
structure CycleState where
  registry : Registry
  redis : RedisService
  redisOps : List RedisOp
  deliveries : List (ℤ × Alert)

/-- The delivery half of the per-pair body (src/app/services/
bot_service.py lines 109-117): attempt delivery; on success mark the
fingerprint as sent when one is present, then update `last_notified`. -/
def deliverStep (outcome : SendOutcome) (now : ℚ) (user : User)
    (alert : Alert) (markId : Option String) (st : CycleState) : CycleState :=
  let res := send_alert_to_user outcome st.registry user
  let st := { st with registry := res.2
                      deliveries := st.deliveries ++ [(user.chat_id, alert)] }
  if res.1 then
    let st :=
      match markId with
      | some aid =>
        let marked := mark_alert_as_sent st.redis false now user.chat_id aid
        { st with redis := marked.1
                  redisOps := st.redisOps ++ [RedisOp.mark user.chat_id aid] }
      | none => st
    { st with registry := st.registry.updateLastNotified user.chat_id now }
  else st

/-- The whole per-pair body (src/app/services/bot_service.py lines
104-117).  `alert.get('story_id')` is truthy only for a nonempty
string; only then is the dedup store consulted, and an already-sent pair
is skipped (`continue`). -/
def process_user_alert (outcome : SendOutcome) (now : ℚ) (user : User)
    (alert : Alert) (st : CycleState) : CycleState :=
  let alert_id :=
    match alert.story_id with
    | some s => if s = "" then none else some s
    | none => none
  match alert_id with
  | some aid =>
    let st := { st with redisOps := st.redisOps ++ [RedisOp.query user.chat_id aid] }
    if has_alert_been_sent st.redis false now user.chat_id aid then st
    else deliverStep outcome now user alert (some aid) st
  | none => deliverStep outcome now user alert none st

/-- One iteration of the location-grouping loop of
`check_and_send_alerts` (src/app/services/bot_service.py lines 66-73):
a user with a falsy location is skipped, otherwise appended to their
location's group, creating the group on first sight. -/
def addUserToGroups (groups : List (String × List User)) (u : User) :
    List (String × List User) :=
  match u.location with
  | none => groups
  | some loc =>
    if loc = "" then groups
    else if groups.any (fun p => p.1 = loc) then
      groups.map (fun p => if p.1 = loc then (p.1, p.2 ++ [u]) else p)
    else groups ++ [(loc, [u])]

/-- The location grouping of `check_and_send_alerts` (src/app/services/
bot_service.py lines 65-73): groups keep dict insertion order, users
keep list order. -/
def usersByLocation (active_users : List User) : List (String × List User) :=
  active_users.foldl addUserToGroups []

/-- The delivery loops of `check_and_send_alerts` (src/app/services/
bot_service.py lines 91-117): per location group, filter alerts whose
title contains the location, then process every (user, alert) pair.
`outcomes` gives the transport outcome per pair. -/
def check_and_send_alerts_loop (outcomes : ℤ → Alert → SendOutcome)
    (now : ℚ) (all_alerts : List Alert) (active_users : List User)
    (st : CycleState) : CycleState :=
  (usersByLocation active_users).foldl
    (fun st p =>
      let location_alerts := all_alerts.filter fun a => strContains a.title p.1
      p.2.foldl
        (fun st user =>
          location_alerts.foldl
            (fun st alert => process_user_alert (outcomes user.chat_id alert) now user alert st)
            st)
        st)
    st

/-! ### Helper lemmas about substring search and the retry loop -/

lemma listContains_cons_of_tail (n : List Char) (c : Char) (rest : List Char)
    (h : listContains n rest = true) : listContains n (c :: rest) = true := by
  simp [listContains, h]

lemma listContains_self_append (n t : List Char) :
    listContains n (n ++ t) = true := by
  cases n with
  | nil =>
    cases t with
    | nil => simp [listContains]
    | cons c r => simp [listContains]
  | cons c cs =>
    simp only [List.cons_append, listContains, Bool.or_eq_true]
    left
    simp [List.isPrefixOf_iff_prefix]

lemma listContains_append_left (pre n t : List Char) :
    listContains n (pre ++ (n ++ t)) = true := by
  induction pre with
  | nil => simpa using listContains_self_append n t
  | cons c cs ih => simpa using listContains_cons_of_tail _ c _ ih

/-- The rendered 403 message contains the substring `"403"` for every
URL, so the `except` handler never re-raises it. -/
lemma strContains_blockedMsg (url : String) :
    strContains (blockedMsg url) "403" = true := by
  have hdata : (blockedMsg url).data =
      ['4', '0', '3'] ++ (" Client Error: Forbidden for url: ".data ++ url.data) := by
    show ("403 Client Error: Forbidden for url: " ++ url).data = _
    rw [String.data_append]
    rfl
  show listContains "403".toList (blockedMsg url).toList = true
  show listContains "403".data (blockedMsg url).data = true
  rw [hdata]
  exact listContains_append_left [] ['4', '0', '3'] _

/-- The event trace of a run all of whose attempts hit a 403: a polite
sleep and a request per attempt, a backoff sleep after each non-final
attempt. -/
def blockRunEvents : Nat → List ReqEvent
  | 0 => []
  | 1 => [ReqEvent.politeSleep, ReqEvent.gotoCall]
  | r + 2 => ReqEvent.politeSleep :: ReqEvent.gotoCall :: ReqEvent.backoffSleep ::
      blockRunEvents (r + 1)

lemma blockRunEvents_counts : ∀ n : Nat,
    (blockRunEvents n).count ReqEvent.gotoCall = n ∧
    (blockRunEvents n).count ReqEvent.rotateIdentity = 0 ∧
    (blockRunEvents n).count ReqEvent.rebuildSession = 0 := by
  intro n
  induction n using Nat.strong_induction_on with
  | _ n ih =>
    match n with
    | 0 => simp [blockRunEvents]
    | 1 => simp [blockRunEvents, List.count_cons]
    | r + 2 =>
      have h := ih (r + 1) (by omega)
      simp only [blockRunEvents, List.count_cons]
      refine ⟨?_, ?_, ?_⟩ <;> simp [h.1, h.2.1, h.2.2]

/-- Behaviour of the retry loop when every attempt is met by a 403: the
loop consumes all remaining attempts, emits only sleeps and requests,
and ends by raising the 403 message. -/
lemma makeRequestLoop_all403 (url : String) (goto : Nat → GotoOutcome)
    (maxRetries : Nat)
    (hall : ∀ i, ∃ c, goto i = GotoOutcome.response 403 c) :
    ∀ remaining last evs, 1 ≤ remaining → remaining ≤ maxRetries →
      makeRequestLoop url goto maxRetries remaining last evs =
        ⟨evs.reverse ++ blockRunEvents remaining,
          Except.error (blockedMsg url)⟩ := by
  intro remaining
  induction remaining with
  | zero => intro last evs h1 _; omega
  | succ r ih =>
    intro last evs _ hle
    obtain ⟨c, hc⟩ := hall (maxRetries - (r + 1))
    cases r with
    | zero =>
      have hcond : ¬ (maxRetries - (0 + 1) < maxRetries - 1) := by omega
      simp only [makeRequestLoop, hc, if_pos rfl, hcond, if_false,
        strContains_blockedMsg, if_pos, if_true]
      simp [blockRunEvents]
    | succ r' =>
      have hcond : maxRetries - (r' + 1 + 1) < maxRetries - 1 := by omega
      have hrec := ih last (ReqEvent.backoffSleep :: ReqEvent.gotoCall ::
        ReqEvent.politeSleep :: evs) (by omega) (by omega)
      rw [makeRequestLoop.eq_def]
      simp only [hc, if_pos rfl, hcond, if_true]
      rw [hrec]
      simp [blockRunEvents, List.append_assoc]

/-- C2: the claim as frozen is refuted on the code: for a fetch whose
three attempts all return HTTP 403, the run performs 3 attempts and
raises the 403 error, but its trace records zero identity rotations and
zero session rebuilds, while the claim asserts the Identity is rotated
and the session rebuilt between each pair of consecutive attempts. -/
theorem C2_counterexample :
    (make_request "u" (fun _ => GotoOutcome.response 403 "x") 3).attempts = 3 ∧
    (make_request "u" (fun _ => GotoOutcome.response 403 "x") 3).result =
      Except.error (blockedMsg "u") ∧
    (make_request "u" (fun _ => GotoOutcome.response 403 "x") 3).rotations = 0 ∧
    (make_request "u" (fun _ => GotoOutcome.response 403 "x") 3).rebuilds = 0 :=
  ⟨by decide, rfl, by decide, by decide⟩

/-- C2 (amended): for every fetch in which every attempt yields HTTP
403, `_make_request` performs exactly `maxRetries` attempts and then
raises the 403 error; between consecutive attempts only backoff and
polite delays occur — the Identity is never rotated and the session is
never rebuilt. -/
theorem C2_block_retry_budget (url : String) (goto : Nat → GotoOutcome)
    (maxRetries : Nat) (hpos : 1 ≤ maxRetries)
    (hall : ∀ i, ∃ c, goto i = GotoOutcome.response 403 c) :
    make_request url goto maxRetries =
      ⟨blockRunEvents maxRetries, Except.error (blockedMsg url)⟩ ∧
    (make_request url goto maxRetries).attempts = maxRetries ∧
    (make_request url goto maxRetries).rotations = 0 ∧
    (make_request url goto maxRetries).rebuilds = 0 := by
  have h := makeRequestLoop_all403 url goto maxRetries hall maxRetries none []
    hpos (le_refl _)
  have hrun : make_request url goto maxRetries =
      ⟨blockRunEvents maxRetries, Except.error (blockedMsg url)⟩ := by
    simpa [make_request] using h
  have hcounts := blockRunEvents_counts maxRetries
  refine ⟨hrun, ?_, ?_, ?_⟩ <;>
    simp [hrun, FetchResult.attempts, FetchResult.rotations,
      FetchResult.rebuilds, hcounts.1, hcounts.2.1, hcounts.2.2]

/-- C2 witness: the amended theorem at `url = "u"`, a constantly-403
oracle and the default `maxRetries = 3`. -/
theorem C2_block_retry_budget_witness :
    1 ≤ 3 ∧
    (make_request "u" (fun _ => GotoOutcome.response 403 "x") 3).attempts = 3 :=
  ⟨by decide,
    (C2_block_retry_budget "u" (fun _ => GotoOutcome.response 403 "x") 3
      (by decide) (fun _ => ⟨"x", rfl⟩)).2.1⟩

/-- Classifier used to state the non-block-failure property: the error
message the first attempt would raise when its outcome is not a success
and not a 403 block signal. -/
def nonBlockFailMsg (url : String) : GotoOutcome → Option String
  | GotoOutcome.noResponse => some (noResponseMsg url)
  | GotoOutcome.transportError m => some m
  | GotoOutcome.response c _ =>
    if 400 ≤ c ∧ c ≠ 403 then some (httpErrorMsg c url) else none

/-- C7: the claim as frozen is refuted on the code: a fetch of a URL
containing the substring `"403"` that yields HTTP 404 on every attempt
is retried — the run performs 3 attempts, not 1, because the `except`
handler classifies by testing whether the rendered message (which embeds
the URL) contains `"403"`. -/
theorem C7_counterexample :
    (make_request "a403" (fun _ => GotoOutcome.response 404 "c") 3).attempts = 3 ∧
    (make_request "a403" (fun _ => GotoOutcome.response 404 "c") 3).result =
      Except.error (httpErrorMsg 404 "a403") :=
  ⟨by decide, rfl⟩

/-- C7 (amended): a first attempt that yields a non-403 HTTP error
(status ≥ 400), no response, or a transport error is propagated to the
caller immediately after that single attempt — provided the rendered
error message does not contain the substring `"403"` (which can happen,
for instance, when the URL contains `"403"`; such errors are retried
like block signals). -/
theorem C7_nonblock_no_retry (url : String) (goto : Nat → GotoOutcome)
    (maxRetries : Nat) (msg : String) (hpos : 1 ≤ maxRetries)
    (hmsg : nonBlockFailMsg url (goto 0) = some msg)
    (h403 : strContains msg "403" = false) :
    make_request url goto maxRetries =
      ⟨[ReqEvent.politeSleep, ReqEvent.gotoCall], Except.error msg⟩ ∧
    (make_request url goto maxRetries).attempts = 1 := by
  obtain ⟨k, rfl⟩ : ∃ k, maxRetries = k + 1 :=
    ⟨maxRetries - 1, by omega⟩
  have hatt : k + 1 - (k + 1) = 0 := by omega
  have hmain : make_request url goto (k + 1) =
      ⟨[ReqEvent.politeSleep, ReqEvent.gotoCall], Except.error msg⟩ := by
    rw [make_request, makeRequestLoop.eq_def]
    simp only [hatt]
    cases hg : goto 0 with
    | noResponse =>
      rw [hg] at hmsg
      simp only [nonBlockFailMsg, Option.some.injEq] at hmsg
      subst hmsg
      simp [h403]
    | transportError m =>
      rw [hg] at hmsg
      simp only [nonBlockFailMsg, Option.some.injEq] at hmsg
      subst hmsg
      simp [h403]
    | response c content =>
      rw [hg] at hmsg
      simp only [nonBlockFailMsg] at hmsg
      by_cases hc : 400 ≤ c ∧ c ≠ 403
      · rw [if_pos hc] at hmsg
        obtain ⟨hge, hne⟩ := hc
        obtain rfl : httpErrorMsg c url = msg := by
          simpa using hmsg
        simp [hg, hne, hge, h403]
      · rw [if_neg hc] at hmsg
        exact absurd hmsg (by simp)
  exact ⟨hmain, by simp [hmain, FetchResult.attempts]⟩

/-- C7 witness: a 404 on a URL without `"403"` in it propagates after
one attempt. -/
theorem C7_nonblock_no_retry_witness :
    1 ≤ 3 ∧
    nonBlockFailMsg "u" ((fun _ => GotoOutcome.response 404 "c") 0) =
      some (httpErrorMsg 404 "u") ∧
    strContains (httpErrorMsg 404 "u") "403" = false ∧
    (make_request "u" (fun _ => GotoOutcome.response 404 "c") 3).attempts = 1 :=
  ⟨by decide, by decide, by decide,
    (C7_nonblock_no_retry "u" (fun _ => GotoOutcome.response 404 "c") 3
      (httpErrorMsg 404 "u") (by decide) (by decide) (by decide)).2⟩

/-- C8: for every cache key, TTL `t` and entry written at time `T`,
`is_cache_valid` is true exactly when the entry exists and the elapsed
time `now - T` is strictly below `t`; it is true strictly before
`T + t`, false at and after `T + t`, and false when no entry or no
timestamp exists. -/
theorem C8_cache_validity (cache : Cache) (t now T : ℚ) (key : String)
    (entry : CacheEntry)
    (hkey : cache key = some entry) (hts : entry.timestamp = some T) :
    (is_cache_valid cache t now key = true ↔ now - T < t) ∧
    (now < T + t → is_cache_valid cache t now key = true) ∧
    (T + t ≤ now → is_cache_valid cache t now key = false) ∧
    (∀ (c : Cache) (k : String), c k = none → is_cache_valid c t now k = false) ∧
    (∀ (c : Cache) (k : String) (e : CacheEntry), c k = some e →
      e.timestamp = none → is_cache_valid c t now k = false) := by
  have hbase : is_cache_valid cache t now key = decide (now - T < t) := by
    simp [is_cache_valid, hkey, hts]
  refine ⟨?_, ?_, ?_, ?_, ?_⟩
  · rw [hbase]; simp
  · intro h; rw [hbase]; simp; linarith
  · intro h; rw [hbase]; simp; linarith
  · intro c k hc; simp [is_cache_valid, hc]
  · intro c k e hc hts2; simp [is_cache_valid, hc, hts2]

/-- C8 witness: an entry written at `T = 10` with TTL `600` is valid at
`now = 100` and invalid at `now = 610`. -/
theorem C8_cache_validity_witness :
    ((fun k => if k = "water_alerts_all" then
        some (⟨[], some 10⟩ : CacheEntry) else none) : Cache) "water_alerts_all" =
      some (⟨[], some 10⟩ : CacheEntry) ∧
    (⟨[], some 10⟩ : CacheEntry).timestamp = some 10 ∧
    is_cache_valid
      (fun k => if k = "water_alerts_all" then
        some (⟨[], some 10⟩ : CacheEntry) else none) 600 100 "water_alerts_all" = true ∧
    is_cache_valid
      (fun k => if k = "water_alerts_all" then
        some (⟨[], some 10⟩ : CacheEntry) else none) 600 610 "water_alerts_all" = false := by
  refine ⟨by simp, rfl, ?_, ?_⟩
  · exact (C8_cache_validity _ 600 100 10 "water_alerts_all"
      (⟨[], some 10⟩ : CacheEntry) (by simp) rfl).2.1 (by norm_num)
  · exact (C8_cache_validity _ 600 610 10 "water_alerts_all"
      (⟨[], some 10⟩ : CacheEntry) (by simp) rfl).2.2.1 (by norm_num)

/-- C3: the claim as frozen is refuted on the code: starting from an
empty cache, a cycle in which every page fetch fails returns the empty
list to the caller — the per-page handler skips failures, so no error
ever reaches `_handle_scraping_failure` and neither cached data nor the
placeholder is substituted. -/
theorem C3_counterexample :
    (get_data (fun _ => 0) "B" Cache.empty 600
      (fun _ => PageFetch.failed) 50).data = [] ∧
    is_cache_valid Cache.empty 600 50 get_cache_key = false :=
  ⟨rfl, rfl⟩

/-- C3 (amended): `_handle_scraping_failure` returns the cached entry
data when the key is present (even if stale) and the non-empty
placeholder set otherwise, but it runs only when an error escapes the
page loop; per-page fetch failures are skipped inside the loop, so a
cycle in which every page fetch fails returns the empty list rather
than the fallback. -/
theorem C3_fallback_and_empty_cycle (pyHash : String → ℤ)
    (BASE_URL : String) (cache : Cache) (ct : ℚ) (page : Nat → PageFetch)
    (now : ℚ)
    (hfail : ∀ p, page p = PageFetch.failed)
    (hmiss : is_cache_valid cache ct now get_cache_key = false) :
    (get_data pyHash BASE_URL cache ct page now).data = [] ∧
    (∀ e, cache get_cache_key = some e →
      handle_scraping_failure cache now get_cache_key = e.data) ∧
    (cache get_cache_key = none →
      handle_scraping_failure cache now get_cache_key = get_fallback_data now) ∧
    get_fallback_data now ≠ [] := by
  refine ⟨?_, ?_, ?_, ?_⟩
  · simp [get_data, hmiss, hfail, scrapeOnePage]
  · intro e he; simp [handle_scraping_failure, he]
  · intro he; simp [handle_scraping_failure, he]
  · simp [get_fallback_data]

/-- C3 witness: the amended theorem at the empty cache with every page
failing. -/
theorem C3_fallback_and_empty_cycle_witness :
    (∀ p : Nat, (fun _ => PageFetch.failed : Nat → PageFetch) p = PageFetch.failed) ∧
    is_cache_valid Cache.empty 600 50 get_cache_key = false ∧
    (get_data (fun _ => 0) "B" Cache.empty 600
      (fun _ => PageFetch.failed) 50).data = [] :=
  ⟨fun _ => rfl, rfl,
    (C3_fallback_and_empty_cycle (fun _ => 0) "B" Cache.empty 600
      (fun _ => PageFetch.failed) 50 (fun _ => rfl) rfl).1⟩

/-- A concrete accordion link whose panel extracts successfully, used by
the pagination counterexample. -/
def testLink : AccordionLink :=
  ⟨"Alert DistrictA", some ⟨some ⟨some ⟨["hello", "world"]⟩, none⟩⟩⟩

/-- C9: the claim as frozen is refuted on the code: with page 1 yielding
zero extractable panels and pages 2 to 5 each yielding one, the loop
still fetches all 5 pages and returns the 4 alerts of the later pages —
pagination does not stop at the first zero-panel page. -/
theorem C9_counterexample :
    (get_data (fun s => (s.length : ℤ)) "B" Cache.empty 600
      (fun p => if p = 1 then PageFetch.links [] else PageFetch.links [testLink])
      50).pagesFetched = 5 ∧
    (get_data (fun s => (s.length : ℤ)) "B" Cache.empty 600
      (fun p => if p = 1 then PageFetch.links [] else PageFetch.links [testLink])
      50).data.length = 4 :=
  ⟨rfl, rfl⟩

/-- C9 (amended): on a cache miss the loop iterates result pages 1 to 5
in order and fetches all five — the fixed page cap is the only
termination condition; a page yielding zero panels does not stop the
iteration, and a failed page contributes nothing while the remaining
pages are still scraped. -/
theorem C9_pagination_fixed_cap (pyHash : String → ℤ) (BASE_URL : String)
    (cache : Cache) (ct : ℚ) (page : Nat → PageFetch) (now : ℚ)
    (hmiss : is_cache_valid cache ct now get_cache_key = false) :
    (get_data pyHash BASE_URL cache ct page now).pagesFetched = 5 ∧
    (get_data pyHash BASE_URL cache ct page now).data =
      ([1, 2, 3, 4, 5] : List Nat).flatMap
        (fun p => scrapeOnePage (extract_item_data pyHash BASE_URL now) (page p)) := by
  constructor <;> simp [get_data, hmiss]

/-- C9 witness: the amended theorem at the empty cache with a concrete
page oracle whose first page has zero panels. -/
theorem C9_pagination_fixed_cap_witness :
    is_cache_valid Cache.empty 600 50 get_cache_key = false ∧
    (get_data (fun s => (s.length : ℤ)) "B" Cache.empty 600
      (fun p => if p = 1 then PageFetch.links [] else PageFetch.links [testLink])
      50).pagesFetched = 5 :=
  ⟨rfl,
    (C9_pagination_fixed_cap (fun s => (s.length : ℤ)) "B" Cache.empty 600
      (fun p => if p = 1 then PageFetch.links [] else PageFetch.links [testLink])
      50 rfl).1⟩

/-- C6: the dedup store is fail-open and safe before the first write:
the query returns `false` when the client is not connected, `false`
whenever the backend query raises (the handler swallows the exception —
the embedded function is total and returns a `Bool` for every failure
oracle value), and `false` for every key never marked. -/
theorem C6_dedup_fail_open (svc : RedisService) (fail : Bool) (now : ℚ)
    (chat_id : ℤ) (alert_id : String) :
    (svc.redis_client = none →
      has_alert_been_sent svc fail now chat_id alert_id = false) ∧
    (fail = true →
      has_alert_been_sent svc fail now chat_id alert_id = false) ∧
    (∀ ttl : ℚ, has_alert_been_sent ⟨some RedisDB.empty, ttl⟩ fail now
      chat_id alert_id = false) ∧
    (∀ db : RedisDB, alert_id ∉ db.members (get_user_key chat_id) →
      has_alert_been_sent ⟨some db, svc.ttl⟩ false now chat_id alert_id = false) := by
  refine ⟨?_, ?_, ?_, ?_⟩
  · intro h
    simp [has_alert_been_sent, h]
  · intro h
    subst h
    cases hc : svc.redis_client <;> simp [has_alert_been_sent, hc]
  · intro ttl
    cases fail <;>
      simp [has_alert_been_sent, RedisDB.sismember, RedisDB.liveMembers,
        RedisDB.expired, RedisDB.empty]
  · intro db hmem
    simp only [has_alert_been_sent, if_neg Bool.false_ne_true]
    by_cases hex : db.expired now (get_user_key chat_id) <;>
      simp [RedisDB.sismember, RedisDB.liveMembers, hex, hmem]

/-- C6 witness: a disconnected service, a raising backend, and the empty
store all answer `false`. -/
theorem C6_dedup_fail_open_witness :
    (⟨none, 0⟩ : RedisService).redis_client = none ∧
    has_alert_been_sent ⟨none, 0⟩ false 0 1 "a" = false ∧
    has_alert_been_sent ⟨some RedisDB.empty, 5⟩ true 0 1 "a" = false :=
  ⟨rfl, (C6_dedup_fail_open ⟨none, 0⟩ false 0 1 "a").1 rfl,
    (C6_dedup_fail_open ⟨some RedisDB.empty, 5⟩ true 0 1 "a").2.1 rfl⟩

/-- C1: the claim as frozen is refuted on the code: the dedup store
keeps one Redis set per subscriber (`sent_alerts:{chat_id}`) and
`mark_alert_as_sent` resets the TTL of that whole set, so inserting a
different pair for the same subscriber does change the expiry of an
existing pair.  Concretely, with the default 14-day TTL: mark (1, "a")
at time 0, mark (1, "b") at time 100; at time 1209650 — past the
original expiry 0 + 1209600 of (1, "a"), where the claim requires
`hasBeenSent(1, "a") = false` — the query still returns `true`, while
without the second insertion it returns `false`. -/
theorem C1_counterexample :
    has_alert_been_sent
      ((mark_alert_as_sent
        ((mark_alert_as_sent ⟨some RedisDB.empty, REDIS_ALERT_TTL⟩ false 0 1 "a").1)
        false 100 1 "b").1)
      false 1209650 1 "a" = true ∧
    (0 : ℚ) + REDIS_ALERT_TTL < 1209650 ∧
    has_alert_been_sent
      ((mark_alert_as_sent ⟨some RedisDB.empty, REDIS_ALERT_TTL⟩ false 0 1 "a").1)
      false 1209650 1 "a" = false := by
  have e1 : ¬ ((100 : ℚ) + REDIS_ALERT_TTL ≤ 1209650) := by norm_num [REDIS_ALERT_TTL]
  have e2 : ¬ ((0 : ℚ) + REDIS_ALERT_TTL ≤ 100) := by norm_num [REDIS_ALERT_TTL]
  have e3 : (0 : ℚ) + REDIS_ALERT_TTL ≤ 1209650 := by norm_num [REDIS_ALERT_TTL]
  refine ⟨?_, by norm_num [REDIS_ALERT_TTL], ?_⟩ <;>
    simp [has_alert_been_sent, mark_alert_as_sent, RedisDB.sismember,
      RedisDB.liveMembers, RedisDB.expired, RedisDB.expire, RedisDB.sadd,
      RedisDB.empty, e1, e2, e3] <;>
    norm_num [REDIS_ALERT_TTL]

/-- C1 (amended): dedup entries are grouped per subscriber:
`mark_alert_as_sent(s, f)` at time `T` inserts `f` into subscriber `s`'s
set and resets the expiry of that whole set to `T + TTL` (default
1209600 s = 14 days).  Within the window the pair reads as sent; at and
after the set's expiry it reads as not sent; marking a pair of a
different subscriber (that is, one with a different dedup key) never
changes `s`'s answers; and marking a second fingerprint for the same
subscriber inside the window extends the life of the first pair to the
second insertion's window. -/
theorem C1_dedup_per_subscriber_ttl
    (db : RedisDB) (s s2 : ℤ) (f f2 : String) (T T2 n1 n2 n3 : ℚ)
    (h1 : T ≤ n1) (h2 : n1 < T + REDIS_ALERT_TTL)
    (h3 : T + REDIS_ALERT_TTL ≤ n2)
    (h4 : T ≤ T2) (h5 : T2 < T + REDIS_ALERT_TTL)
    (h6 : T2 ≤ n3) (h7 : n3 < T2 + REDIS_ALERT_TTL) :
    (has_alert_been_sent
      (mark_alert_as_sent ⟨some db, REDIS_ALERT_TTL⟩ false T s f).1
      false n1 s f = true) ∧
    (has_alert_been_sent
      (mark_alert_as_sent ⟨some db, REDIS_ALERT_TTL⟩ false T s f).1
      false n2 s f = false) ∧
    (∀ (m : ℚ) (c : ℤ), get_user_key c ≠ get_user_key s2 →
      has_alert_been_sent
        (mark_alert_as_sent
          (mark_alert_as_sent ⟨some db, REDIS_ALERT_TTL⟩ false T s f).1
          false T2 s2 f2).1 false m c f =
      has_alert_been_sent
        (mark_alert_as_sent ⟨some db, REDIS_ALERT_TTL⟩ false T s f).1
        false m c f) ∧
    (has_alert_been_sent
      (mark_alert_as_sent
        (mark_alert_as_sent ⟨some db, REDIS_ALERT_TTL⟩ false T s f).1
        false T2 s f2).1 false n3 s f = true) := by
  have hnot1 : ¬ (T + REDIS_ALERT_TTL ≤ n1) := not_le.mpr h2
  have hnot5 : ¬ (T + REDIS_ALERT_TTL ≤ T2) := not_le.mpr h5
  have hnot7 : ¬ (T2 + REDIS_ALERT_TTL ≤ n3) := not_le.mpr h7
  refine ⟨?_, ?_, ?_, ?_⟩
  · simp [has_alert_been_sent, mark_alert_as_sent, RedisDB.sismember,
      RedisDB.liveMembers, RedisDB.expired, RedisDB.expire, RedisDB.sadd,
      hnot1]
  · simp [has_alert_been_sent, mark_alert_as_sent, RedisDB.sismember,
      RedisDB.liveMembers, RedisDB.expired, RedisDB.expire, RedisDB.sadd,
      h3]
  · intro m c hne
    simp [has_alert_been_sent, mark_alert_as_sent, RedisDB.sismember,
      RedisDB.liveMembers, RedisDB.expired, RedisDB.expire, RedisDB.sadd,
      hne]
  · by_cases hf : f2 = f
    · subst hf
      simp [has_alert_been_sent, mark_alert_as_sent, RedisDB.sismember,
        RedisDB.liveMembers, RedisDB.expired, RedisDB.expire, RedisDB.sadd,
        hnot5, hnot7]
    · have hf2 : ¬ (f = f2) := fun h => hf h.symm
      simp [has_alert_been_sent, mark_alert_as_sent, RedisDB.sismember,
        RedisDB.liveMembers, RedisDB.expired, RedisDB.expire, RedisDB.sadd,
        hnot5, hnot7, List.erase_cons, hf2]

/-- C1 witness: the amended theorem at the empty store, subscribers 1
and 2, fingerprints `"a"` and `"b"`, `T = 0`, `T2 = 100`. -/
theorem C1_dedup_per_subscriber_ttl_witness :
    ((0 : ℚ) ≤ 5 ∧ (5 : ℚ) < 0 + REDIS_ALERT_TTL ∧
      (0 : ℚ) + REDIS_ALERT_TTL ≤ 1209600 ∧
      (0 : ℚ) ≤ 100 ∧ (100 : ℚ) < 0 + REDIS_ALERT_TTL ∧
      (100 : ℚ) ≤ 1209650 ∧ (1209650 : ℚ) < 100 + REDIS_ALERT_TTL) ∧
    has_alert_been_sent
      (mark_alert_as_sent ⟨some RedisDB.empty, REDIS_ALERT_TTL⟩ false 0 1 "a").1
      false 5 1 "a" = true := by
  have hc := C1_dedup_per_subscriber_ttl RedisDB.empty 1 2 "a" "b" 0 100 5 1209600 1209650
    (by norm_num) (by norm_num [REDIS_ALERT_TTL]) (by norm_num [REDIS_ALERT_TTL])
    (by norm_num) (by norm_num [REDIS_ALERT_TTL]) (by norm_num)
    (by norm_num [REDIS_ALERT_TTL])
  exact ⟨⟨by norm_num, by norm_num [REDIS_ALERT_TTL], by norm_num [REDIS_ALERT_TTL],
    by norm_num, by norm_num [REDIS_ALERT_TTL], by norm_num,
    by norm_num [REDIS_ALERT_TTL]⟩, hc.1⟩

/-- The capture timestamp is the only field of an extracted record that
depends on the clock: extraction at `t1` equals extraction at `t2` with
`published_at` rewritten. -/
lemma extract_item_data_time (pyHash : String → ℤ) (u : String)
    (t1 t2 : ℚ) (e : AccordionLink) :
    extract_item_data pyHash u t1 e =
      (extract_item_data pyHash u t2 e).map
        (fun a => { a with published_at := t1 }) := by
  obtain ⟨text, panel⟩ := e
  cases panel with
  | none => simp [extract_item_data]
  | some p =>
    obtain ⟨coll⟩ := p
    cases coll with
    | none => simp [extract_item_data]
    | some bw => simp [extract_item_data]

lemma extractPage_time (parse : String → List AccordionLink)
    (pyHash : String → ℤ) (u : String) (t1 t2 : ℚ) (html : String) :
    extractPage parse pyHash u t1 html =
      (extractPage parse pyHash u t2 html).map
        (fun a => { a with published_at := t1 }) := by
  unfold extractPage
  rw [List.map_filterMap]
  exact List.filterMap_congr fun e _ => extract_item_data_time pyHash u t1 t2 e

/-- C4: extraction is deterministic in its fingerprint output: two
extractions of byte-identical raw HTML (at possibly different times —
only `published_at` depends on the clock) produce the same fingerprints,
titles and messages for matching records, and each fingerprint is the
hash of the whitespace-normalized title concatenated with the
whitespace-normalized message. -/
theorem C4_fingerprint_deterministic (parse : String → List AccordionLink)
    (pyHash : String → ℤ) (BASE_URL : String) (t1 t2 : ℚ) (rawHTML : String) :
    (extractPage parse pyHash BASE_URL t1 rawHTML).map Alert.story_id =
      (extractPage parse pyHash BASE_URL t2 rawHTML).map Alert.story_id ∧
    (extractPage parse pyHash BASE_URL t1 rawHTML).map Alert.title =
      (extractPage parse pyHash BASE_URL t2 rawHTML).map Alert.title ∧
    (extractPage parse pyHash BASE_URL t1 rawHTML).map Alert.message =
      (extractPage parse pyHash BASE_URL t2 rawHTML).map Alert.message ∧
    (∀ (e : AccordionLink) (a : Alert) (t : ℚ),
      extract_item_data pyHash BASE_URL t e = some a →
      a.story_id = some (toString (pyHash (a.title ++ a.message))) ∧
      a.title = collapseWs (pyStrip e.text)) := by
  refine ⟨?_, ?_, ?_, ?_⟩
  · rw [extractPage_time parse pyHash BASE_URL t1 t2 rawHTML, List.map_map]
    rfl
  · rw [extractPage_time parse pyHash BASE_URL t1 t2 rawHTML, List.map_map]
    rfl
  · rw [extractPage_time parse pyHash BASE_URL t1 t2 rawHTML, List.map_map]
    rfl
  · intro e a t h
    obtain ⟨text, panel⟩ := e
    cases panel with
    | none => simp [extract_item_data] at h
    | some p =>
      obtain ⟨coll⟩ := p
      cases coll with
      | none => simp [extract_item_data] at h
      | some bw =>
        simp only [extract_item_data, Option.some.injEq] at h
        subst h
        exact ⟨rfl, rfl⟩

/-- C4 witness: the determinism theorem instantiated on a concrete
accordion link at two different times, plus the fingerprint structure of
the concretely extracted record. -/
theorem C4_fingerprint_deterministic_witness :
    extract_item_data (fun s => (s.length : ℤ)) "B" 7 testLink =
      some ⟨"Alert DistrictA", "hello world", some "B", 7, some "26"⟩ ∧
    (⟨"Alert DistrictA", "hello world", some "B", 7, some "26"⟩ : Alert).story_id =
      some (toString ((fun s => (s.length : ℤ))
        ((⟨"Alert DistrictA", "hello world", some "B", 7, some "26"⟩ : Alert).title ++
          (⟨"Alert DistrictA", "hello world", some "B", 7, some "26"⟩ : Alert).message))) :=
  ⟨rfl,
    ((C4_fingerprint_deterministic (fun _ => [testLink]) (fun s => (s.length : ℤ))
      "B" 7 9 "").2.2.2 testLink _ 7 rfl).1⟩

/-- C5: per (subscriber, record) delivery attempt on a record carrying a
fingerprint: on transport success the pair is marked sent and
`last_notified` is updated; on a "bot was blocked" Telegram error the
subscriber is deactivated and nothing is marked; on any other failure
neither the dedup store nor `last_notified` changes, so the pair stays
eligible for the next cycle. -/
theorem C5_delivery_outcomes (outcome : SendOutcome) (now : ℚ)
    (user : User) (alert : Alert) (st : CycleState) (f : String) (db : RedisDB)
    (hf : alert.story_id = some f) (hne : f ≠ "")
    (hnew : has_alert_been_sent st.redis false now user.chat_id f = false)
    (hdb : st.redis.redis_client = some db) (httl : 0 < st.redis.ttl) :
    (outcome = SendOutcome.delivered →
      has_alert_been_sent (process_user_alert outcome now user alert st).redis
        false now user.chat_id f = true ∧
      (process_user_alert outcome now user alert st).redisOps =
        st.redisOps ++ [RedisOp.query user.chat_id f, RedisOp.mark user.chat_id f] ∧
      (process_user_alert outcome now user alert st).registry user.chat_id =
        (st.registry user.chat_id).map (fun u => { u with last_notified := some now })) ∧
    (∀ msg, outcome = SendOutcome.telegramError msg →
      strContains (pyLower msg) "bot was blocked" = true →
      (process_user_alert outcome now user alert st).registry user.chat_id =
        (st.registry user.chat_id).map (fun u => { u with is_active := false }) ∧
      (process_user_alert outcome now user alert st).redis = st.redis ∧
      (process_user_alert outcome now user alert st).redisOps =
        st.redisOps ++ [RedisOp.query user.chat_id f]) ∧
    (∀ msg, outcome = SendOutcome.telegramError msg →
      strContains (pyLower msg) "bot was blocked" = false →
      (process_user_alert outcome now user alert st).registry = st.registry ∧
      (process_user_alert outcome now user alert st).redis = st.redis ∧
      (process_user_alert outcome now user alert st).redisOps =
        st.redisOps ++ [RedisOp.query user.chat_id f] ∧
      has_alert_been_sent (process_user_alert outcome now user alert st).redis
        false now user.chat_id f = false) ∧
    (∀ msg, outcome = SendOutcome.unexpectedError msg →
      (process_user_alert outcome now user alert st).registry = st.registry ∧
      (process_user_alert outcome now user alert st).redis = st.redis ∧
      (process_user_alert outcome now user alert st).redisOps =
        st.redisOps ++ [RedisOp.query user.chat_id f] ∧
      has_alert_been_sent (process_user_alert outcome now user alert st).redis
        false now user.chat_id f = false) := by
  have hnotexp : ¬ (now + st.redis.ttl ≤ now) := by linarith
  have hstep : process_user_alert outcome now user alert st =
      deliverStep outcome now user alert (some f)
        { st with redisOps := st.redisOps ++ [RedisOp.query user.chat_id f] } := by
    simp [process_user_alert, hf, hne, hnew]
  refine ⟨?_, ?_, ?_, ?_⟩
  · rintro rfl
    rw [hstep]
    refine ⟨?_, ?_, ?_⟩
    · simp [deliverStep, send_alert_to_user, mark_alert_as_sent, hdb,
        has_alert_been_sent, RedisDB.sismember, RedisDB.liveMembers,
        RedisDB.expired, RedisDB.expire, RedisDB.sadd, hnotexp]
    · simp [deliverStep, send_alert_to_user, mark_alert_as_sent, hdb]
    · simp [deliverStep, send_alert_to_user, mark_alert_as_sent, hdb,
        Registry.updateLastNotified]
  · rintro msg rfl hblocked
    rw [hstep]
    refine ⟨?_, ?_, ?_⟩ <;>
      simp [deliverStep, send_alert_to_user, hblocked, Registry.updateActive]
  · rintro msg rfl hnb
    rw [hstep]
    refine ⟨?_, ?_, ?_, ?_⟩ <;>
      simp [deliverStep, send_alert_to_user, hnb, hnew]
  · rintro msg rfl
    rw [hstep]
    refine ⟨?_, ?_, ?_, ?_⟩ <;>
      simp [deliverStep, send_alert_to_user, hnew]

/-- C5 witness: a successful delivery of a fingerprinted alert to a
concrete subscriber marks the pair and stamps `last_notified`. -/
theorem C5_delivery_outcomes_witness :
    (⟨"T", "M", none, 0, some "x"⟩ : Alert).story_id = some "x" ∧
    ("x" : String) ≠ "" ∧
    has_alert_been_sent
      (⟨(fun c => if c = 10 then some ⟨10, "u", some "L", true, none⟩ else none),
        ⟨some RedisDB.empty, 1209600⟩, [], []⟩ : CycleState).redis
      false 5 (10 : ℤ) "x" = false ∧
    (0 : ℚ) < 1209600 ∧
    (process_user_alert SendOutcome.delivered 5 ⟨10, "u", some "L", true, none⟩
      ⟨"T", "M", none, 0, some "x"⟩
      ⟨(fun c => if c = 10 then some ⟨10, "u", some "L", true, none⟩ else none),
        ⟨some RedisDB.empty, 1209600⟩, [], []⟩).redisOps =
      [RedisOp.query 10 "x", RedisOp.mark 10 "x"] := by
  refine ⟨rfl, by decide, rfl, by norm_num, ?_⟩
  have h := (C5_delivery_outcomes SendOutcome.delivered 5
    ⟨10, "u", some "L", true, none⟩ ⟨"T", "M", none, 0, some "x"⟩
    ⟨(fun c => if c = 10 then some ⟨10, "u", some "L", true, none⟩ else none),
      ⟨some RedisDB.empty, 1209600⟩, [], []⟩ "x" RedisDB.empty
    rfl (by decide) rfl rfl (by norm_num)).1 rfl
  simpa using h.2.1

/-! ### Helper lemmas about the fan-out loops -/

/-- The delivery half always records exactly one delivery attempt. -/
lemma deliverStep_deliveries (o : SendOutcome) (now : ℚ) (u : User)
    (a : Alert) (markId : Option String) (st : CycleState) :
    (deliverStep o now u a markId st).deliveries =
      st.deliveries ++ [(u.chat_id, a)] := by
  cases o <;> cases markId <;> simp [deliverStep, send_alert_to_user]

/-- A record without a usable fingerprint is processed without touching
the dedup store and is always attempted. -/
lemma process_user_alert_none_id (o : SendOutcome) (now : ℚ) (u : User)
    (a : Alert) (st : CycleState) (hid : a.story_id = none) :
    (process_user_alert o now u a st).redisOps = st.redisOps ∧
    (process_user_alert o now u a st).redis = st.redis ∧
    (process_user_alert o now u a st).deliveries =
      st.deliveries ++ [(u.chat_id, a)] := by
  have hstep : process_user_alert o now u a st = deliverStep o now u a none st := by
    simp [process_user_alert, hid]
  rw [hstep]
  refine ⟨?_, ?_, deliverStep_deliveries o now u a none st⟩ <;>
    cases o <;> simp [deliverStep, send_alert_to_user]

/-- The per-pair body never removes recorded deliveries. -/
lemma process_user_alert_deliveries_mono (o : SendOutcome) (now : ℚ)
    (u : User) (a : Alert) (st : CycleState) :
    st.deliveries <+: (process_user_alert o now u a st).deliveries := by
  cases ha : a.story_id with
  | none =>
    rw [(process_user_alert_none_id o now u a st ha).2.2]
    exact List.prefix_append _ _
  | some s =>
    by_cases hs : s = ""
    · have hstep : process_user_alert o now u a st = deliverStep o now u a none st := by
        simp [process_user_alert, ha, hs]
      rw [hstep, deliverStep_deliveries]
      exact List.prefix_append _ _
    · by_cases hb : has_alert_been_sent st.redis false now u.chat_id s
      · have hstep : process_user_alert o now u a st =
            { st with redisOps := st.redisOps ++ [RedisOp.query u.chat_id s] } := by
          simp [process_user_alert, ha, hs, hb]
        rw [hstep]
      · have hstep : process_user_alert o now u a st =
            deliverStep o now u a (some s)
              { st with redisOps := st.redisOps ++ [RedisOp.query u.chat_id s] } := by
          simp [process_user_alert, ha, hs, hb]
        rw [hstep, deliverStep_deliveries]
        exact List.prefix_append _ _

/-- A fold whose step only appends deliveries only appends deliveries. -/
lemma foldl_deliveries_mono {α : Type} (g : CycleState → α → CycleState)
    (hg : ∀ st x, st.deliveries <+: (g st x).deliveries) :
    ∀ (l : List α) (st : CycleState),
      st.deliveries <+: (l.foldl g st).deliveries
  | [], _ => List.prefix_rfl
  | x :: xs, st => (hg st x).trans (foldl_deliveries_mono g hg xs (g st x))

/-- If some element of the fold is guaranteed to record a given
delivery, and no step removes deliveries, the fold's result records
it. -/
lemma foldl_deliveries_mem {α : Type} (g : CycleState → α → CycleState)
    (hg : ∀ st x, st.deliveries <+: (g st x).deliveries)
    (pair : ℤ × Alert) (x0 : α)
    (hhit : ∀ st, pair ∈ (g st x0).deliveries) :
    ∀ (l : List α), x0 ∈ l → ∀ st, pair ∈ (l.foldl g st).deliveries := by
  intro l
  induction l with
  | nil => intro h; cases h
  | cons y ys ih =>
    intro hmem st
    rcases List.mem_cons.mp hmem with h | h
    · subst h
      exact (foldl_deliveries_mono g hg ys (g st x0)).sublist.subset (hhit st)
    · exact ih h (g st y)

/-- Adding a user to the groups preserves membership of every user
already recorded in a group. -/
lemma addUserToGroups_preserves (groups : List (String × List User))
    (v u : User) (loc : String)
    (h : ∃ us, (loc, us) ∈ groups ∧ u ∈ us) :
    ∃ us, (loc, us) ∈ addUserToGroups groups v ∧ u ∈ us := by
  obtain ⟨us, hmem, hu⟩ := h
  cases hvl : v.location with
  | none =>
    simp only [addUserToGroups, hvl]
    exact ⟨us, hmem, hu⟩
  | some lv =>
    simp only [addUserToGroups, hvl]
    by_cases hlv : lv = ""
    · rw [if_pos hlv]; exact ⟨us, hmem, hu⟩
    · rw [if_neg hlv]
      by_cases hany : groups.any (fun p => p.1 = lv)
      · rw [if_pos hany]
        have hmap := List.mem_map_of_mem
          (fun p : String × List User => if p.1 = lv then (p.1, p.2 ++ [v]) else p) hmem
        by_cases hl : loc = lv
        · exact ⟨us ++ [v], by simpa [hl] using hmap, List.mem_append_left _ hu⟩
        · exact ⟨us, by simpa [hl] using hmap, hu⟩
      · rw [if_neg hany]
        exact ⟨us, List.mem_append_left _ hmem, hu⟩

/-- Adding a user with a non-empty location records them in that
location's group. -/
lemma addUserToGroups_self (groups : List (String × List User)) (u : User)
    (loc : String) (hl : u.location = some loc) (hne : loc ≠ "") :
    ∃ us, (loc, us) ∈ addUserToGroups groups u ∧ u ∈ us := by
  simp only [addUserToGroups, hl]
  rw [if_neg hne]
  by_cases hany : groups.any (fun p => p.1 = loc)
  · rw [if_pos hany]
    obtain ⟨p, hp, hploc⟩ := List.any_eq_true.mp hany
    have hploc2 : p.1 = loc := of_decide_eq_true hploc
    refine ⟨p.2 ++ [u], ?_, List.mem_append_right _ (by simp)⟩
    have hmap := List.mem_map_of_mem
      (fun q : String × List User => if q.1 = loc then (q.1, q.2 ++ [u]) else q) hp
    simpa [hploc2] using hmap
  · rw [if_neg hany]
    exact ⟨[u], List.mem_append_right _ (by simp), by simp⟩

lemma usersByLocation_mem_aux (u : User) (loc : String)
    (hl : u.location = some loc) (hne : loc ≠ "") :
    ∀ (l : List User) (groups : List (String × List User)),
      (u ∈ l ∨ ∃ us, (loc, us) ∈ groups ∧ u ∈ us) →
      ∃ us, (loc, us) ∈ l.foldl addUserToGroups groups ∧ u ∈ us := by
  intro l
  induction l with
  | nil =>
    intro groups h
    rcases h with h | h
    · cases h
    · simpa using h
  | cons v vs ih =>
    intro groups h
    rcases h with h | h
    · rcases List.mem_cons.mp h with h | h
      · subst h
        exact ih _ (Or.inr (addUserToGroups_self groups u loc hl hne))
      · exact ih _ (Or.inl h)
    · exact ih _ (Or.inr (addUserToGroups_preserves groups v u loc h))

/-- Every active user with a non-empty location lands in their
location's group. -/
lemma usersByLocation_mem (active_users : List User) (u : User)
    (loc : String) (hu : u ∈ active_users) (hl : u.location = some loc)
    (hne : loc ≠ "") :
    ∃ us, (loc, us) ∈ usersByLocation active_users ∧ u ∈ us :=
  usersByLocation_mem_aux u loc hl hne active_users [] (Or.inl hu)

/-- C10: a record whose `story_id` is absent bypasses the dedup store
entirely: processing it issues no dedup query and no mark, leaves the
store untouched, attempts delivery regardless of the store contents (in
particular regardless of any prior delivery, so it is re-delivered
every cycle), and still stamps `last_notified` on success; every record
of the static fallback set has no `story_id`; and the fan-out loop of a
cycle delivers such a record to every active subscriber whose location
is a substring of its title. -/
theorem C10_unfingerprinted_redelivery (outcomes : ℤ → Alert → SendOutcome)
    (o : SendOutcome) (now : ℚ) (user : User) (alert : Alert)
    (st : CycleState) (all_alerts : List Alert) (active_users : List User)
    (loc : String) (hid : alert.story_id = none) :
    (process_user_alert o now user alert st).redisOps = st.redisOps ∧
    (process_user_alert o now user alert st).redis = st.redis ∧
    (process_user_alert o now user alert st).deliveries =
      st.deliveries ++ [(user.chat_id, alert)] ∧
    (o = SendOutcome.delivered →
      (process_user_alert o now user alert st).registry user.chat_id =
        (st.registry user.chat_id).map
          (fun u => { u with last_notified := some now })) ∧
    (∀ a ∈ get_fallback_data now, a.story_id = none) ∧
    (user ∈ active_users → user.location = some loc → loc ≠ "" →
      alert ∈ all_alerts → strContains alert.title loc = true →
      (user.chat_id, alert) ∈
        (check_and_send_alerts_loop outcomes now all_alerts active_users
          st).deliveries) := by
  obtain ⟨hops, hredis, hdel⟩ := process_user_alert_none_id o now user alert st hid
  refine ⟨hops, hredis, hdel, ?_, ?_, ?_⟩
  · rintro rfl
    simp [process_user_alert, hid, deliverStep, send_alert_to_user,
      Registry.updateLastNotified]
  · simp [get_fallback_data]
  · intro hu hl hlne halert htitle
    obtain ⟨us, hgmem, huus⟩ := usersByLocation_mem active_users user loc hu hl hlne
    unfold check_and_send_alerts_loop
    refine foldl_deliveries_mem _ ?_ (user.chat_id, alert) (loc, us) ?_
      (usersByLocation active_users) hgmem st
    · intro st1 p
      exact foldl_deliveries_mono _
        (fun st2 u2 => foldl_deliveries_mono _
          (fun st3 a3 => process_user_alert_deliveries_mono _ now u2 a3 st3)
          _ st2)
        p.2 st1
    · intro st1
      refine foldl_deliveries_mem _ ?_ (user.chat_id, alert) user ?_ us huus st1
      · intro st2 u2
        exact foldl_deliveries_mono _
          (fun st3 a3 => process_user_alert_deliveries_mono _ now u2 a3 st3)
          _ st2
      · intro st2
        refine foldl_deliveries_mem _ ?_ (user.chat_id, alert) alert ?_
          (all_alerts.filter fun a2 => strContains a2.title loc)
          (List.mem_filter.mpr ⟨halert, htitle⟩) st2
        · intro st3 a3
          exact process_user_alert_deliveries_mono _ now user a3 st3
        · intro st3
          rw [(process_user_alert_none_id (outcomes user.chat_id alert) now
            user alert st3 hid).2.2]
          simp

/-- C10 witness: a fallback-style record (no `story_id`) whose title
contains the location `"L"` is delivered to the active subscriber 10
during the cycle, for an arbitrary concrete starting state. -/
theorem C10_unfingerprinted_redelivery_witness :
    (⟨"L alert", "m", none, 0, none⟩ : Alert).story_id = none ∧
    ((10 : ℤ), (⟨"L alert", "m", none, 0, none⟩ : Alert)) ∈
      (check_and_send_alerts_loop (fun _ _ => SendOutcome.delivered) 5
        [⟨"L alert", "m", none, 0, none⟩] [⟨10, "u", some "L", true, none⟩]
        ⟨(fun _ => none), ⟨some RedisDB.empty, 1209600⟩, [], []⟩).deliveries := by
  refine ⟨rfl, ?_⟩
  exact (C10_unfingerprinted_redelivery (fun _ _ => SendOutcome.delivered)
    SendOutcome.delivered 5 ⟨10, "u", some "L", true, none⟩
    ⟨"L alert", "m", none, 0, none⟩
    ⟨(fun _ => none), ⟨some RedisDB.empty, 1209600⟩, [], []⟩
    [⟨"L alert", "m", none, 0, none⟩] [⟨10, "u", some "L", true, none⟩]
    "L" rfl).2.2.2.2.2 (by simp) rfl (by decide) (by simp) (by decide)

end WaterBot
